import Mathlib

/-!
Verification of the palette-assignment core of the themify CLI
(`src/cli/src/generators/themeGenerator.ts`).

Modelling conventions:
* JavaScript floating-point numbers are idealized as exact rationals (`ℚ`)
  for the HSL / palette arithmetic, and as real numbers (`ℝ`) for the WCAG
  luminance and contrast math, whose gamma power `x ^ 2.4` is irrational.
* `Math.random()` is made an explicit `rand : ℚ` parameter of the theme
  generators; it feeds only the `--radius` entry.
* A CSS color string is modelled by the inductive `CssValue`, keeping the
  constructor (`hsl(h, s%, l%)` vs literal hex string) and the exact numeric
  arguments; the decimal formatting of numbers inside the string is abstracted.
* A candidate color as it arrives from the extractor is a `RawColor`, whose
  `hue` / `saturation` / `lightness` may be absent (`Option ℚ`), modelling the
  `typeof c.hue === "number"` validity check of the source; a candidate that
  passes the check is a `Color` with all fields present.
* `Array.prototype.sort` (stable) is modelled by `List.mergeSort` (stable),
  with the numeric two-argument comparators translated to their boolean
  "is-less-or-equal-priority" form.
-/

namespace Themify

/-- Truncation toward zero, as used by the JavaScript `%` operator. -/
def jsTrunc (q : ℚ) : ℤ := if 0 ≤ q then ⌊q⌋ else ⌈q⌉

/-- The JavaScript remainder operator `x % y` on numbers. -/
def jsMod (x y : ℚ) : ℚ := x - y * jsTrunc (x / y)

/-- `x % 1` in JavaScript, the hue-wrapping operation of the source. -/
def jsMod1 (x : ℚ) : ℚ := jsMod x 1

/-- The `Color` interface of `src/cli/src/types.ts`, after validation. -/
structure Color where
  hex : String
  red : ℚ
  green : ℚ
  blue : ℚ
  hue : ℚ
  intensity : ℚ
  lightness : ℚ
  saturation : ℚ
  area : ℚ
deriving DecidableEq

/-- Default color used for (unreachable) out-of-bounds array reads. -/
def dfltColor : Color :=
  { hex := "", red := 0, green := 0, blue := 0, hue := 0, intensity := 0,
    lightness := 0, saturation := 0, area := 0 }

instance : Inhabited Color := ⟨dfltColor⟩

/-- A candidate color as handed to `generateTheme`, before the
`typeof color.hue === "number"` (etc.) validity filter: the three HSL fields
may be missing / not numbers. -/
structure RawColor where
  hex : String
  red : ℚ
  green : ℚ
  blue : ℚ
  hue : Option ℚ
  intensity : ℚ
  lightness : Option ℚ
  saturation : Option ℚ
  area : ℚ
deriving DecidableEq

/-- A CSS color-ish string produced by the generator: an `hsl(h, s%, l%)`
functional string, a literal hex string, or the `--radius` rem value. -/
inductive CssValue where
  | hsl (h s l : ℚ)
  | hex (s : String)
  | radius (r : ℚ)
deriving DecidableEq

/-- The optional-field `adjustments` record of `adjustHSL`; a missing field is
`0` (the source reads `adjustments.hue || 0`). -/
structure Adjust where
  hue : ℚ := 0
  saturation : ℚ := 0
  lightness : ℚ := 0

/-- `adjustHSL` of the source: wrap the hue into a degree value and clamp the
percent saturation / lightness to `[0, 100]` after the additive adjustment. -/
def adjustHSL (color : Color) (adjustments : Adjust) : CssValue :=
  CssValue.hsl (jsMod1 (color.hue + adjustments.hue) * 360)
    (max 0 (min 100 (color.saturation * 100 + adjustments.saturation)))
    (max 0 (min 100 (color.lightness * 100 + adjustments.lightness)))

/-- The per-channel sRGB gamma decoding performed inside `getLuminance`
(the arrow function mapped over `[color.red, color.green, color.blue]`). -/
noncomputable def srgbLin (c : ℚ) : ℝ :=
  let sRGB : ℝ := (c : ℝ) / 255
  if sRGB ≤ 0.03928 then sRGB / 12.92 else ((sRGB + 0.055) / 1.055) ^ (2.4 : ℝ)

/-- The WCAG relative luminance helper `getLuminance` defined inside
`getContrastRatio`. -/
noncomputable def getLuminance (color : Color) : ℝ :=
  0.2126 * srgbLin color.red + 0.7152 * srgbLin color.green +
    0.0722 * srgbLin color.blue

/-- `getContrastRatio` of the source. -/
noncomputable def getContrastRatio (color1 color2 : Color) : ℝ :=
  let l1 := getLuminance color1
  let l2 := getLuminance color2
  (max l1 l2 + 0.05) / (min l1 l2 + 0.05)

/-- One iteration of the `ensureContrast` while-loop body: nudge the lightness
by `±5 / 100` (sign chosen by whether the background is light), clamped to
`[0.05, 0.95]`. -/
def stepColor (background adjustedColor : Color) : Color :=
  let lightnessAdjustment : ℚ := if 0.5 < background.lightness then -5 else 5
  { adjustedColor with
    lightness :=
      max 0.05 (min 0.95 (adjustedColor.lightness + lightnessAdjustment / 100)) }

/-- The `ensureContrast` while-loop, with the remaining attempt budget as
fuel (the source starts with `attempts = 0` and `maxAttempts = 20`). -/
noncomputable def ensureContrastLoop (background : Color) (minContrast : ℝ) :
    ℕ → Color → Color
  | 0, c => c
  | fuel + 1, c =>
    if getContrastRatio c background < minContrast then
      ensureContrastLoop background minContrast fuel (stepColor background c)
    else c

/-- `ensureContrast` of the source. -/
noncomputable def ensureContrast (color background : Color)
    (minContrast : ℝ) : CssValue :=
  adjustHSL (ensureContrastLoop background minContrast 20 color) {}

/-- `getReadableTextColor` of the source: black (`hsl(0, 0%, 0%)`) on light
backgrounds, white (`hsl(0, 0%, 100%)`) on dark ones, judged by the plain
(non gamma-decoded) weighted channel average. -/
def getReadableTextColor (bgColor : Color) : CssValue :=
  let luminance : ℚ :=
    0.2126 * (bgColor.red / 255) + 0.7152 * (bgColor.green / 255) +
      0.0722 * (bgColor.blue / 255)
  if 0.5 < luminance then CssValue.hsl 0 0 0 else CssValue.hsl 0 0 100

/-- `createFallbackColor` of the source: the fixed indigo `#6366f1`. -/
def createFallbackColor : Color :=
  { hex := "#6366f1", red := 99, green := 102, blue := 241, hue := 0.6666,
    intensity := 0.5, lightness := 0.6, saturation := 0.8, area := 1 }

/-- The validity check of the `colors.filter(...)` call in `generateTheme`:
a candidate passes iff its `hue`, `saturation` and `lightness` are numbers. -/
def validate (color : RawColor) : Option Color :=
  match color.hue, color.saturation, color.lightness with
  | some hue, some saturation, some lightness =>
    some { hex := color.hex, red := color.red, green := color.green,
           blue := color.blue, hue := hue, intensity := color.intensity,
           lightness := lightness, saturation := saturation, area := color.area }
  | _, _, _ => none

/-- The `validColors` local of `generateTheme`. -/
def validColors (colors : List RawColor) : List Color := colors.filterMap validate

/-- The plain (non gamma-decoded) weighted luminance used by the
`colorsByLuminance` sort comparator of `generateTheme`. -/
def simpleLuminance (c : Color) : ℚ :=
  0.2126 * (c.red / 255) + 0.7152 * (c.green / 255) + 0.0722 * (c.blue / 255)

/-- Comparator of `sort((a, b) => b.area - a.area)`: `a` may precede `b`. -/
def areaDesc (a b : Color) : Bool := decide (b.area ≤ a.area)

/-- Comparator of the `colorsByLuminance` sort (ascending). -/
def lumAsc (a b : Color) : Bool := decide (simpleLuminance a ≤ simpleLuminance b)

/-- Comparator of `sort((a, b) => b.saturation - a.saturation)`. -/
def satDesc (a b : Color) : Bool := decide (b.saturation ≤ a.saturation)

/-- The `sortedColors` local of `generateTheme` before padding: sort by area
descending, keep the `min 6 length` most prominent candidates. -/
def top6 (valid : List Color) : List Color :=
  (valid.mergeSort areaDesc).take (min 6 valid.length)

/-- The variation pushed by the `while (sortedColors.length < 6)` loop when the
working list currently has `len` elements and most-prominent color `baseColor`. -/
def variation (baseColor : Color) (len : ℕ) : Color :=
  { baseColor with
    hue := jsMod1 (baseColor.hue + (len : ℚ) * 0.1),
    lightness := 0.3 + jsMod ((len : ℚ) * 0.1) 0.7 }

/-- The `while (sortedColors.length < 6)` padding loop, with fuel (the loop
runs at most `6 - initial length ≤ 5` times on the paths that reach it). -/
def pad : ℕ → List Color → List Color
  | 0, sortedColors => sortedColors
  | fuel + 1, sortedColors =>
    if sortedColors.length < 6 then
      pad fuel
        (sortedColors ++ [variation (sortedColors.getD 0 dfltColor) sortedColors.length])
    else sortedColors

/-- The final 6-element `sortedColors` working set of `generateTheme`. -/
def workingSet (valid : List Color) : List Color := pad 6 (top6 valid)

/-- JavaScript array indexing `l[i]` (total, with an unreachable default). -/
def nth (l : List Color) (i : ℕ) : Color := l.getD i dfltColor

/-- The `colorsByLuminance` local of `generateTheme`. -/
def colorsByLuminance (ws : List Color) : List Color := ws.mergeSort lumAsc

/-- The `colorsBySaturation` local of `generateTheme`. -/
def colorsBySaturation (ws : List Color) : List Color := ws.mergeSort satDesc

/-- The `mostProminentColor` local of `generateTheme` (`sortedColors[0]`). -/
def mostProminentColor (ws : List Color) : Color := nth ws 0

/-- The `isDarkTheme` local of `generateTheme`. -/
def isDarkTheme (ws : List Color) : Bool :=
  decide ((mostProminentColor ws).lightness < 0.5)

/-- The `bgColor` local of `generateTheme`. -/
def bgColor (ws : List Color) : Color :=
  if isDarkTheme ws then
    { nth (colorsByLuminance ws) 0 with
      lightness := max 0.05 ((nth (colorsByLuminance ws) 0).lightness - 0.1) }
  else
    { nth (colorsByLuminance ws) 5 with
      lightness := min 0.95 ((nth (colorsByLuminance ws) 5).lightness + 0.1) }

/-- The `fgColor` local of `generateTheme`. -/
def fgColor (ws : List Color) : Color :=
  if isDarkTheme ws then
    { nth (colorsByLuminance ws) 5 with
      lightness := min 0.95 ((nth (colorsByLuminance ws) 5).lightness + 0.1) }
  else
    { nth (colorsByLuminance ws) 0 with
      lightness := max 0.05 ((nth (colorsByLuminance ws) 0).lightness - 0.1) }

/-- The `primaryColor` local of `generateTheme` (`colorsBySaturation[0]`). -/
def primaryColor (ws : List Color) : Color := nth (colorsBySaturation ws) 0

/-- The `secondaryColor` local of `generateTheme`. -/
def secondaryColor (ws : List Color) : Color :=
  if isDarkTheme ws then
    { nth (colorsBySaturation ws) 2 with
      lightness := min 0.8 ((nth (colorsBySaturation ws) 2).lightness + 0.1) }
  else
    { nth (colorsBySaturation ws) 2 with
      lightness := max 0.2 ((nth (colorsBySaturation ws) 2).lightness - 0.1) }

/-- The `accentColor` local of `generateTheme`: triadic-ish hue rotation of
`primaryColor` by the literal `0.33`, saturation boosted by 10 % capped at 1. -/
def accentColor (ws : List Color) : Color :=
  { primaryColor ws with
    hue := jsMod1 ((primaryColor ws).hue + 0.33),
    saturation := min 1 ((primaryColor ws).saturation * 1.1) }

/-- The `mutedColor` local of `generateTheme`. -/
def mutedColor (ws : List Color) : Color :=
  let c := nth (colorsByLuminance ws) (if isDarkTheme ws then 1 else 4)
  { c with saturation := min 0.3 c.saturation }

/-- The `borderColor` local of `generateTheme`. -/
def borderColor (ws : List Color) : Color :=
  let bg := bgColor ws
  { bg with
    lightness :=
      if isDarkTheme ws then min 0.5 (bg.lightness + 0.15)
      else max 0.5 (bg.lightness - 0.15) }

/-- The theme object returned by `generateTheme` on the multi-candidate path,
without its final `--radius` entry, in source order. -/
def mainThemeBody (ws : List Color) : List (String × CssValue) :=
  [("--background", adjustHSL (bgColor ws) {}),
   ("--foreground", adjustHSL (fgColor ws) {}),
   ("--card", adjustHSL (bgColor ws) { lightness := if isDarkTheme ws then 5 else -5 }),
   ("--card-foreground", adjustHSL (fgColor ws) {}),
   ("--popover", adjustHSL (bgColor ws) { lightness := if isDarkTheme ws then 8 else -8 }),
   ("--popover-foreground", adjustHSL (fgColor ws) {}),
   ("--primary", adjustHSL (primaryColor ws) {}),
   ("--primary-foreground", getReadableTextColor (primaryColor ws)),
   ("--secondary", adjustHSL (secondaryColor ws) {}),
   ("--secondary-foreground", getReadableTextColor (secondaryColor ws)),
   ("--accent", adjustHSL (accentColor ws) {}),
   ("--accent-foreground", getReadableTextColor (accentColor ws)),
   ("--muted", adjustHSL (mutedColor ws) {}),
   ("--muted-foreground", adjustHSL (fgColor ws) { lightness := if isDarkTheme ws then -15 else 15 }),
   ("--destructive", CssValue.hex "#ff4444"),
   ("--destructive-foreground", CssValue.hex "#ffffff"),
   ("--border", adjustHSL (borderColor ws) {}),
   ("--input", adjustHSL (borderColor ws) { lightness := if isDarkTheme ws then 5 else -5 }),
   ("--ring", adjustHSL (primaryColor ws) { saturation := 10, lightness := if isDarkTheme ws then 10 else -10 })]

/-- The `--radius` value: `Math.random() * 0.5 + 0.3` (in rem), with the
random sample made explicit and the 3-decimal formatting abstracted. -/
def radiusValue (rand : ℚ) : CssValue := CssValue.radius (rand * 0.5 + 0.3)

/-- The `bgColor` local of `generateThemeFromSingleColor`. -/
def singleBg (color : Color) : Color :=
  if color.lightness < 0.5 then { color with lightness := 0.1, saturation := 0.1 }
  else { color with lightness := 0.98, saturation := 0.05 }

/-- The `fgColor` local of `generateThemeFromSingleColor`. -/
def singleFg (color : Color) : Color :=
  if color.lightness < 0.5 then { color with lightness := 0.9, saturation := 0.1 }
  else { color with lightness := 0.1, saturation := 0.1 }

/-- The `primaryColor` local of `generateThemeFromSingleColor`. -/
def singlePrimary (color : Color) : Color :=
  { color with saturation := min 1 (color.saturation * 1.2) }

/-- The `secondaryColor` local of `generateThemeFromSingleColor`. -/
def singleSecondary (color : Color) : Color :=
  { color with
    hue := jsMod1 (color.hue + 0.1),
    saturation := max 0.2 (color.saturation * 0.7) }

/-- The `accentColor` local of `generateThemeFromSingleColor`. -/
def singleAccent (color : Color) : Color :=
  { color with
    hue := jsMod1 (color.hue + 0.33),
    saturation := min 1 (color.saturation * 1.1) }

/-- The `mutedColor` local of `generateThemeFromSingleColor`. -/
def singleMuted (color : Color) : Color :=
  { color with
    saturation := min 0.3 (color.saturation * 0.5),
    lightness := if color.lightness < 0.5 then 0.2 else 0.8 }

/-- The `borderColor` local of `generateThemeFromSingleColor`. -/
def singleBorder (color : Color) : Color :=
  { singleBg color with
    lightness := if color.lightness < 0.5 then 0.25 else 0.75 }

/-- The theme object of `generateThemeFromSingleColor` without its final
`--radius` entry, in source order. -/
def singleThemeBody (color : Color) : List (String × CssValue) :=
  [("--background", adjustHSL (singleBg color) {}),
   ("--foreground", adjustHSL (singleFg color) {}),
   ("--card", adjustHSL (singleBg color) { lightness := if color.lightness < 0.5 then 5 else -5 }),
   ("--card-foreground", adjustHSL (singleFg color) {}),
   ("--popover", adjustHSL (singleBg color) { lightness := if color.lightness < 0.5 then 8 else -8 }),
   ("--popover-foreground", adjustHSL (singleFg color) {}),
   ("--primary", adjustHSL (singlePrimary color) {}),
   ("--primary-foreground", if color.lightness < 0.5 then CssValue.hex "#ffffff" else CssValue.hex "#000000"),
   ("--secondary", adjustHSL (singleSecondary color) {}),
   ("--secondary-foreground", if color.lightness < 0.5 then CssValue.hex "#ffffff" else CssValue.hex "#000000"),
   ("--accent", adjustHSL (singleAccent color) {}),
   ("--accent-foreground", if color.lightness < 0.5 then CssValue.hex "#ffffff" else CssValue.hex "#000000"),
   ("--muted", adjustHSL (singleMuted color) {}),
   ("--muted-foreground", if color.lightness < 0.5 then CssValue.hex "#a1a1aa" else CssValue.hex "#71717a"),
   ("--destructive", CssValue.hex "#ff4444"),
   ("--destructive-foreground", CssValue.hex "#ffffff"),
   ("--border", adjustHSL (singleBorder color) {}),
   ("--input", adjustHSL (singleBorder color) { lightness := if color.lightness < 0.5 then 5 else -5 }),
   ("--ring", adjustHSL (singlePrimary color) { saturation := 10, lightness := if color.lightness < 0.5 then 10 else -10 })]

/-- `generateThemeFromSingleColor` of the source. -/
def generateThemeFromSingleColor (rand : ℚ) (color : Color) :
    List (String × CssValue) :=
  singleThemeBody color ++ [("--radius", radiusValue rand)]

/-- `generateTheme` of the source. -/
def generateTheme (rand : ℚ) (colors : List RawColor) : List (String × CssValue) :=
  if colors.length = 0 then generateThemeFromSingleColor rand createFallbackColor
  else if (validColors colors).length = 0 then
    generateThemeFromSingleColor rand createFallbackColor
  else mainThemeBody (workingSet (validColors colors)) ++ [("--radius", radiusValue rand)]

/-- Which 6-element working set, if any, `generateTheme` uses for role
assignment: `none` on the two paths that delegate to
`generateThemeFromSingleColor` (which consults no working set). -/
def workingSetOpt (colors : List RawColor) : Option (List Color) :=
  if colors.length = 0 then none
  else if (validColors colors).length = 0 then none
  else some (workingSet (validColors colors))

/-- The fixed key set of the returned theme object, in source order. -/
def themeKeys : List String :=
  ["--background", "--foreground", "--card", "--card-foreground", "--popover",
   "--popover-foreground", "--primary", "--primary-foreground", "--secondary",
   "--secondary-foreground", "--accent", "--accent-foreground", "--muted",
   "--muted-foreground", "--destructive", "--destructive-foreground", "--border",
   "--input", "--ring", "--radius"]

/-- All RGB channels within `[0, 255]`. -/
def ValidRGB (c : Color) : Prop :=
  0 ≤ c.red ∧ c.red ≤ 255 ∧ 0 ≤ c.green ∧ c.green ≤ 255 ∧ 0 ≤ c.blue ∧ c.blue ≤ 255

/-- A raw candidate all of whose checked HSL fields are missing. -/
def invalidRaw : RawColor :=
  { hex := "", red := 0, green := 0, blue := 0, hue := none, intensity := 0,
    lightness := none, saturation := none, area := 0 }

/-- Pure black, `(0, 0, 0)`. -/
def blackColor : Color :=
  { hex := "#000000", red := 0, green := 0, blue := 0, hue := 0, intensity := 0,
    lightness := 0, saturation := 0, area := 0 }

/-- Pure white, `(255, 255, 255)`. -/
def whiteColor : Color :=
  { hex := "#ffffff", red := 255, green := 255, blue := 255, hue := 0,
    intensity := 0, lightness := 1, saturation := 0, area := 0 }

/-- Concrete test candidate: pure red, dominant by area, dark lightness. -/
def cxA : Color :=
  { hex := "#ff0000", red := 255, green := 0, blue := 0, hue := 0, intensity := 0,
    lightness := 0.3, saturation := 1, area := 0.9 }

/-- Concrete test candidate: a mid green `(0, 110, 0)`. Its linear (non-gamma)
luminance `0.7152 · 110 / 255 ≈ 0.308` exceeds `cxA`'s `0.2126`, while its
gamma-decoded WCAG relative luminance `≈ 0.112` is below `cxA`'s `0.2126`. -/
def cxB : Color :=
  { hex := "#006e00", red := 0, green := 110, blue := 0, hue := 0.33, intensity := 0,
    lightness := 0.4, saturation := 1, area := 0.05 }

/-- Concrete test candidate: pure white filler. -/
def cxW : Color :=
  { hex := "#ffffff", red := 255, green := 255, blue := 255, hue := 0,
    intensity := 0, lightness := 0.95, saturation := 0, area := 0.01 }

/-- A concrete 6-candidate working set (already in area-descending order). -/
def cxList : List Color := [cxA, cxB, cxW, cxW, cxW, cxW]

/-- Concrete test candidate: saturated red with hue `0`. -/
def cxR : Color :=
  { hex := "#ff0000", red := 255, green := 0, blue := 0, hue := 0, intensity := 0,
    lightness := 0.5, saturation := 1, area := 0.2 }

/-- A concrete working set of six identical saturated-red candidates. -/
def cxRL : List Color := [cxR, cxR, cxR, cxR, cxR, cxR]

/-- A concrete valid candidate (indigo-like, dark). -/
def sampleColor : Color :=
  { hex := "#6366f1", red := 99, green := 102, blue := 241, hue := 0.6,
    intensity := 0.5, lightness := 0.3, saturation := 0.8, area := 1 }

/-- Wrap a valid `Color` back into the raw input form. -/
def rawOf (c : Color) : RawColor :=
  { hex := c.hex, red := c.red, green := c.green, blue := c.blue,
    hue := some c.hue, intensity := c.intensity, lightness := some c.lightness,
    saturation := some c.saturation, area := c.area }

/-! ### Helper lemmas -/

theorem jsMod_small {x y : ℚ} (h0 : 0 ≤ x) (hxy : x < y) : jsMod x y = x := by
  have hy : 0 < y := lt_of_le_of_lt h0 hxy
  have hdiv0 : 0 ≤ x / y := div_nonneg h0 hy.le
  have hdiv1 : x / y < 1 := (div_lt_one hy).mpr hxy
  have : jsTrunc (x / y) = 0 := by
    rw [jsTrunc, if_pos hdiv0]
    exact Int.floor_eq_zero_iff.mpr ⟨hdiv0, hdiv1⟩
  simp [jsMod, this]

theorem jsMod1_small {x : ℚ} (h0 : 0 ≤ x) (h1 : x < 1) : jsMod1 x = x :=
  jsMod_small h0 h1

theorem lookup_append_radius (l : List (String × CssValue)) (k : String)
    (hk : k ≠ "--radius") (v w : CssValue) :
    (l ++ [("--radius", v)]).lookup k = (l ++ [("--radius", w)]).lookup k := by
  induction l with
  | nil =>
    have : (k == "--radius") = false := beq_eq_false_iff_ne.mpr hk
    simp [List.lookup, this]
  | cons p t ih =>
    obtain ⟨a, b⟩ := p
    cases h : (k == a) <;> simp [List.lookup, h, ih]

/-! ### Claims -/

/-- C10: for every input candidate list (and every random sample), the theme
returned by `generateTheme` maps `--destructive` to the literal `#ff4444` and
`--destructive-foreground` to the literal `#ffffff`, independent of the input
colors. -/
theorem destructive_constants : ∀ (r : ℚ) (colors : List RawColor),
    (generateTheme r colors).lookup "--destructive" = some (CssValue.hex "#ff4444") ∧
    (generateTheme r colors).lookup "--destructive-foreground" =
      some (CssValue.hex "#ffffff") := by
  intro r colors
  by_cases h1 : colors.length = 0 <;> by_cases h2 : (validColors colors).length = 0 <;>
    simp [generateTheme, h1, h2, generateThemeFromSingleColor, singleThemeBody,
      mainThemeBody, List.lookup]

/-- C4: `generateTheme` is deterministic except for the `--radius` key: runs
with different random samples agree on every other key, and `--radius` itself
does depend on the random sample. -/
theorem radius_only_nondeterminism :
    (∀ (r₁ r₂ : ℚ) (colors : List RawColor) (k : String), k ≠ "--radius" →
      (generateTheme r₁ colors).lookup k = (generateTheme r₂ colors).lookup k) ∧
    (generateTheme 0 []).lookup "--radius" ≠ (generateTheme 1 []).lookup "--radius" := by
  constructor
  · intro r₁ r₂ colors k hk
    by_cases h1 : colors.length = 0 <;> by_cases h2 : (validColors colors).length = 0 <;>
      simp only [generateTheme, h1, h2, if_true, if_false, ite_true, ite_false,
        generateThemeFromSingleColor] <;>
      exact lookup_append_radius _ k hk _ _
  · simp [generateTheme, generateThemeFromSingleColor, singleThemeBody,
      List.lookup, radiusValue]
    norm_num

/-- C4 witness: two runs on the empty list with different random samples agree
on the `--background` key. -/
theorem radius_only_nondeterminism_witness :
    (generateTheme 0 []).lookup "--background" = (generateTheme 5 []).lookup "--background" :=
  radius_only_nondeterminism.1 0 5 [] "--background" (by decide)

/-- C1: for every input list of candidates the (total) `generateTheme`
returns a theme covering exactly the fixed ~19 role keys (plus `--radius`),
and on the empty list, or on a list whose candidates all fail the numeric
hue/saturation/lightness check, it substitutes the fixed indigo `#6366f1`
fallback color and proceeds via `generateThemeFromSingleColor`. -/
theorem generateTheme_total_covers_keys :
    (∀ (r : ℚ) (colors : List RawColor),
      (generateTheme r colors).map Prod.fst = themeKeys) ∧
    (∀ r : ℚ, generateTheme r [] = generateThemeFromSingleColor r createFallbackColor) ∧
    (∀ (r : ℚ) (colors : List RawColor), validColors colors = [] →
      generateTheme r colors = generateThemeFromSingleColor r createFallbackColor) := by
  refine ⟨?_, ?_, ?_⟩
  · intro r colors
    by_cases h1 : colors.length = 0 <;> by_cases h2 : (validColors colors).length = 0 <;>
      simp [generateTheme, h1, h2, generateThemeFromSingleColor, singleThemeBody,
        mainThemeBody, themeKeys]
  · intro r
    simp [generateTheme]
  · intro r colors h
    by_cases h1 : colors.length = 0 <;> simp [generateTheme, h1, h]

/-- C1 witness: on a concrete singleton list whose only candidate has no
numeric HSL fields, the theme covers all keys and equals the fallback theme. -/
theorem generateTheme_total_covers_keys_witness :
    (generateTheme 0 [invalidRaw]).map Prod.fst = themeKeys ∧
    generateTheme 0 [invalidRaw] = generateThemeFromSingleColor 0 createFallbackColor :=
  ⟨generateTheme_total_covers_keys.1 0 [invalidRaw],
   generateTheme_total_covers_keys.2.2 0 [invalidRaw]
     (by simp [validColors, validate, invalidRaw])⟩

theorem srgbLin_nonneg {c : ℚ} (h : 0 ≤ c) : 0 ≤ srgbLin c := by
  have hs0 : (0 : ℝ) ≤ (c : ℝ) / 255 := by
    apply div_nonneg _ (by norm_num)
    exact_mod_cast h
  simp only [srgbLin]
  split_ifs with h1
  · exact div_nonneg hs0 (by norm_num)
  · exact Real.rpow_nonneg (div_nonneg (by linarith) (by norm_num)) _

theorem srgbLin_le_one {c : ℚ} (h0 : 0 ≤ c) (h1 : c ≤ 255) : srgbLin c ≤ 1 := by
  have hs0 : (0 : ℝ) ≤ (c : ℝ) / 255 := by
    apply div_nonneg _ (by norm_num)
    exact_mod_cast h0
  have hs1 : (c : ℝ) / 255 ≤ 1 := by
    rw [div_le_one (by norm_num)]
    exact_mod_cast h1
  simp only [srgbLin]
  split_ifs with h2
  · rw [div_le_one (by norm_num)]
    linarith
  · apply Real.rpow_le_one (div_nonneg (by linarith) (by norm_num)) _ (by norm_num)
    rw [div_le_one (by norm_num)]
    linarith

theorem getLuminance_nonneg {c : Color} (h : ValidRGB c) : 0 ≤ getLuminance c := by
  obtain ⟨h1, h2, h3, h4, h5, h6⟩ := h
  have r0 := srgbLin_nonneg h1
  have g0 := srgbLin_nonneg h3
  have b0 := srgbLin_nonneg h5
  unfold getLuminance
  nlinarith

theorem getLuminance_le_one {c : Color} (h : ValidRGB c) : getLuminance c ≤ 1 := by
  obtain ⟨h1, h2, h3, h4, h5, h6⟩ := h
  have r1 := srgbLin_le_one h1 h2
  have g1 := srgbLin_le_one h3 h4
  have b1 := srgbLin_le_one h5 h6
  unfold getLuminance
  nlinarith

theorem srgbLin_zero : srgbLin 0 = 0 := by
  simp only [srgbLin]
  rw [if_pos (by norm_num)]
  norm_num

theorem srgbLin_255 : srgbLin 255 = 1 := by
  simp only [srgbLin]
  rw [if_neg (by norm_num)]
  have h : (((255 : ℚ) : ℝ) / 255 + 0.055) / 1.055 = 1 := by norm_num
  rw [h, Real.one_rpow]

/-- C6: the relative-luminance helper of `getContrastRatio` applies the
piecewise sRGB gamma decoding (linear division by `12.92` at or below
`0.03928`, power `((c + 0.055) / 1.055) ^ 2.4` above) and combines the
channels with coefficients `0.2126`, `0.7152`, `0.0722`; for all RGB in
`[0, 255]^3` the result lies in `[0, 1]`, pure black maps to `0` and pure
white maps to `1`. -/
theorem luminance_wcag_formula_bounds :
    (∀ c : Color, ValidRGB c →
      getLuminance c =
        0.2126 * (if ((c.red : ℝ) / 255) ≤ 0.03928 then ((c.red : ℝ) / 255) / 12.92
          else ((((c.red : ℝ) / 255) + 0.055) / 1.055) ^ (2.4 : ℝ)) +
        0.7152 * (if ((c.green : ℝ) / 255) ≤ 0.03928 then ((c.green : ℝ) / 255) / 12.92
          else ((((c.green : ℝ) / 255) + 0.055) / 1.055) ^ (2.4 : ℝ)) +
        0.0722 * (if ((c.blue : ℝ) / 255) ≤ 0.03928 then ((c.blue : ℝ) / 255) / 12.92
          else ((((c.blue : ℝ) / 255) + 0.055) / 1.055) ^ (2.4 : ℝ)) ∧
      0 ≤ getLuminance c ∧ getLuminance c ≤ 1) ∧
    getLuminance blackColor = 0 ∧ getLuminance whiteColor = 1 := by
  refine ⟨fun c h => ⟨rfl, getLuminance_nonneg h, getLuminance_le_one h⟩, ?_, ?_⟩
  · show 0.2126 * srgbLin blackColor.red + 0.7152 * srgbLin blackColor.green +
      0.0722 * srgbLin blackColor.blue = 0
    simp [blackColor, srgbLin_zero]
  · show 0.2126 * srgbLin whiteColor.red + 0.7152 * srgbLin whiteColor.green +
      0.0722 * srgbLin whiteColor.blue = 1
    simp only [whiteColor, srgbLin_255]
    norm_num

/-- C6 witness: the bounds instantiated at pure black. -/
theorem luminance_wcag_formula_bounds_witness :
    0 ≤ getLuminance blackColor ∧ getLuminance blackColor ≤ 1 :=
  ⟨(luminance_wcag_formula_bounds.1 blackColor
      (by refine ⟨?_, ?_, ?_, ?_, ?_, ?_⟩ <;> norm_num [ValidRGB, blackColor])).2.1,
   (luminance_wcag_formula_bounds.1 blackColor
      (by refine ⟨?_, ?_, ?_, ?_, ?_, ?_⟩ <;> norm_num [ValidRGB, blackColor])).2.2⟩

/-- C5: the contrast-ratio function is symmetric, its value lies in `[1, 21]`
for all color pairs with channels in `[0, 255]`, and `contrastRatio(C, C) = 1`
for every such `C`. -/
theorem contrastRatio_symm_range : ∀ c₁ c₂ : Color, ValidRGB c₁ → ValidRGB c₂ →
    getContrastRatio c₁ c₂ = getContrastRatio c₂ c₁ ∧
    1 ≤ getContrastRatio c₁ c₂ ∧ getContrastRatio c₁ c₂ ≤ 21 ∧
    getContrastRatio c₁ c₁ = 1 := by
  intro c₁ c₂ h₁ h₂
  have l1a := getLuminance_nonneg h₁
  have l1b := getLuminance_le_one h₁
  have l2a := getLuminance_nonneg h₂
  have l2b := getLuminance_le_one h₂
  have hmin : (0 : ℝ) < min (getLuminance c₁) (getLuminance c₂) + 0.05 := by
    have := le_min l1a l2a
    linarith
  refine ⟨?_, ?_, ?_, ?_⟩
  · simp only [getContrastRatio]
    rw [max_comm, min_comm]
  · simp only [getContrastRatio]
    rw [le_div_iff₀ hmin, one_mul]
    have := min_le_max (a := getLuminance c₁) (b := getLuminance c₂)
    linarith
  · simp only [getContrastRatio]
    rw [div_le_iff₀ hmin]
    have hmax : max (getLuminance c₁) (getLuminance c₂) ≤ 1 := max_le l1b l2b
    have hmin0 : (0 : ℝ) ≤ min (getLuminance c₁) (getLuminance c₂) := le_min l1a l2a
    linarith
  · simp only [getContrastRatio]
    rw [max_self, min_self]
    exact div_self (by linarith)

/-- C5 witness: the contrast properties instantiated at black and white. -/
theorem contrastRatio_symm_range_witness :
    getContrastRatio blackColor whiteColor = getContrastRatio whiteColor blackColor ∧
    1 ≤ getContrastRatio blackColor whiteColor ∧
    getContrastRatio blackColor whiteColor ≤ 21 ∧
    getContrastRatio blackColor blackColor = 1 :=
  contrastRatio_symm_range blackColor whiteColor
    (by refine ⟨?_, ?_, ?_, ?_, ?_, ?_⟩ <;> norm_num [ValidRGB, blackColor])
    (by refine ⟨?_, ?_, ?_, ?_, ?_, ?_⟩ <;> norm_num [ValidRGB, whiteColor])

theorem ensureContrastLoop_spec (background : Color) (m : ℝ) :
    ∀ (fuel : ℕ) (c : Color), ∃ n, n ≤ fuel ∧
      ensureContrastLoop background m fuel c = (stepColor background)^[n] c ∧
      (∀ k < n, getContrastRatio ((stepColor background)^[k] c) background < m) ∧
      (n < fuel → ¬ getContrastRatio ((stepColor background)^[n] c) background < m) := by
  intro fuel
  induction fuel with
  | zero =>
    intro c
    exact ⟨0, le_refl 0, rfl, fun k hk => absurd hk (Nat.not_lt_zero k),
      fun h => absurd h (lt_irrefl 0)⟩
  | succ f ih =>
    intro c
    by_cases h : getContrastRatio c background < m
    · obtain ⟨n, hn, heq, hall, hstop⟩ := ih (stepColor background c)
      refine ⟨n + 1, by omega, ?_, ?_, ?_⟩
      · show ensureContrastLoop background m (f + 1) c = _
        rw [ensureContrastLoop, if_pos h, heq, Function.iterate_succ_apply]
      · intro k hk
        cases k with
        | zero => simpa using h
        | succ j =>
          rw [Function.iterate_succ_apply]
          exact hall j (by omega)
      · intro hlt
        rw [Function.iterate_succ_apply]
        exact hstop (by omega)
    · refine ⟨0, Nat.zero_le _, ?_, fun k hk => absurd hk (Nat.not_lt_zero k),
        fun _ => h⟩
      rw [ensureContrastLoop, if_neg h, Function.iterate_zero_apply]

/-- C8: for every color, background and threshold, `ensureContrast` moves the
color's lightness by 5 percentage points per attempt (negative when the
background's lightness exceeds `0.5`, positive otherwise, clamped to
`[0.05, 0.95]`), recomputes the WCAG contrast ratio against the background
each iteration, stops as soon as the ratio reaches the threshold or after at
most 20 attempts, and always returns its (serialized) final attempt — also
when the threshold is never reached. -/
theorem ensureContrast_repair_spec : ∀ (color background : Color) (minContrast : ℝ),
    (∀ d : Color, (stepColor background d).lightness =
      max 0.05 (min 0.95
        (d.lightness + (if 0.5 < background.lightness then -5 else 5) / 100))) ∧
    ∃ n, n ≤ 20 ∧
      ensureContrast color background minContrast =
        adjustHSL ((stepColor background)^[n] color) {} ∧
      (∀ k < n,
        getContrastRatio ((stepColor background)^[k] color) background < minContrast) ∧
      (n < 20 →
        minContrast ≤ getContrastRatio ((stepColor background)^[n] color) background) := by
  intro color background minContrast
  refine ⟨fun d => by simp [stepColor], ?_⟩
  obtain ⟨n, hn, heq, hall, hstop⟩ :=
    ensureContrastLoop_spec background minContrast 20 color
  exact ⟨n, hn, by rw [ensureContrast, heq], hall,
    fun hlt => not_lt.mp (hstop hlt)⟩

theorem areaDesc_trans : ∀ a b c : Color, areaDesc a b → areaDesc b c → areaDesc a c := by
  intro a b c
  simp only [areaDesc, decide_eq_true_eq]
  exact fun h1 h2 => le_trans h2 h1

theorem areaDesc_total : ∀ a b : Color, areaDesc a b || areaDesc b a := by
  intro a b
  simp only [areaDesc, Bool.or_eq_true, decide_eq_true_eq]
  exact le_total b.area a.area

theorem areaDesc_refl : ∀ a : Color, areaDesc a a := by
  intro a
  simp [areaDesc]

theorem lumAsc_trans : ∀ a b c : Color, lumAsc a b → lumAsc b c → lumAsc a c := by
  intro a b c
  simp only [lumAsc, decide_eq_true_eq]
  exact le_trans

theorem lumAsc_total : ∀ a b : Color, lumAsc a b || lumAsc b a := by
  intro a b
  simp only [lumAsc, Bool.or_eq_true, decide_eq_true_eq]
  exact le_total _ _

theorem lumAsc_refl : ∀ a : Color, lumAsc a a := by
  intro a
  simp [lumAsc]

theorem satDesc_trans : ∀ a b c : Color, satDesc a b → satDesc b c → satDesc a c := by
  intro a b c
  simp only [satDesc, decide_eq_true_eq]
  exact fun h1 h2 => le_trans h2 h1

theorem satDesc_total : ∀ a b : Color, satDesc a b || satDesc b a := by
  intro a b
  simp only [satDesc, Bool.or_eq_true, decide_eq_true_eq]
  exact le_total _ _

theorem satDesc_refl : ∀ a : Color, satDesc a a := by
  intro a
  simp [satDesc]

theorem nth_eq_getElem {l : List Color} {i : ℕ} (h : i < l.length) :
    nth l i = l.get ⟨i, h⟩ := by
  simp [nth, List.getD_eq_getElem?_getD, List.getElem?_eq_getElem h]

/-- In a list sorted for a reflexive comparator, the element at index 0 is
related to every member. -/
theorem sorted_nth0_le {le : Color → Color → Bool} (hrefl : ∀ a, le a a)
    {l : List Color} (hp : l.Pairwise (le · ·)) (hne : l ≠ []) :
    ∀ c ∈ l, le (nth l 0) c := by
  intro c hc
  obtain ⟨i, hi, rfl⟩ := List.mem_iff_getElem.mp hc
  have h0 : 0 < l.length := List.length_pos.mpr hne
  rw [nth_eq_getElem h0]
  rcases Nat.eq_zero_or_pos i with rfl | hpos
  · exact hrefl _
  · exact List.pairwise_iff_getElem.mp hp 0 i h0 hi hpos

/-- In a 6-element list sorted for a reflexive comparator, every member is
related to the element at index 5. -/
theorem sorted_le_nth5 {le : Color → Color → Bool} (hrefl : ∀ a, le a a)
    {l : List Color} (hp : l.Pairwise (le · ·)) (h6 : l.length = 6) :
    ∀ c ∈ l, le c (nth l 5) := by
  intro c hc
  obtain ⟨i, hi, rfl⟩ := List.mem_iff_getElem.mp hc
  have h5 : 5 < l.length := by omega
  rw [nth_eq_getElem h5]
  rcases Nat.lt_or_ge i 5 with hlt | hge
  · exact List.pairwise_iff_getElem.mp hp i 5 hi h5 hlt
  · have : i = 5 := by omega
    subst this
    exact hrefl _

theorem colorsByLuminance_length (ws : List Color) :
    (colorsByLuminance ws).length = ws.length :=
  List.length_mergeSort ws

theorem colorsByLuminance_mem (ws : List Color) {c : Color} :
    c ∈ colorsByLuminance ws ↔ c ∈ ws :=
  List.mem_mergeSort

theorem colorsByLuminance_pairwise (ws : List Color) :
    (colorsByLuminance ws).Pairwise (lumAsc · ·) :=
  List.sorted_mergeSort lumAsc_trans lumAsc_total ws

/-- C2 (amended): the six working candidates are ordered ascending by the
plain linear luminance `0.2126·R + 0.7152·G + 0.0722·B` of the normalized
channels (not the gamma-decoded WCAG relative luminance): index 0 of the
sorted list is a member of the working set of minimal linear luminance, index
5 one of maximal linear luminance, the theme is dark exactly when the most
dominant candidate's lightness is below `0.5`, and in dark mode the
background is derived from index 0 with lightness `max 0.05 (l - 0.1)` and
the foreground from index 5 with lightness `min 0.95 (l + 0.1)`, the roles
inverting in light mode. -/
theorem bg_fg_selection_linear_luminance : ∀ ws : List Color, ws.length = 6 →
    (nth (colorsByLuminance ws) 0 ∈ ws ∧
      ∀ c ∈ ws, simpleLuminance (nth (colorsByLuminance ws) 0) ≤ simpleLuminance c) ∧
    (nth (colorsByLuminance ws) 5 ∈ ws ∧
      ∀ c ∈ ws, simpleLuminance c ≤ simpleLuminance (nth (colorsByLuminance ws) 5)) ∧
    (isDarkTheme ws = true ↔ (nth ws 0).lightness < 0.5) ∧
    (isDarkTheme ws = true →
      bgColor ws = { nth (colorsByLuminance ws) 0 with
        lightness := max 0.05 ((nth (colorsByLuminance ws) 0).lightness - 0.1) } ∧
      fgColor ws = { nth (colorsByLuminance ws) 5 with
        lightness := min 0.95 ((nth (colorsByLuminance ws) 5).lightness + 0.1) }) ∧
    (isDarkTheme ws = false →
      bgColor ws = { nth (colorsByLuminance ws) 5 with
        lightness := min 0.95 ((nth (colorsByLuminance ws) 5).lightness + 0.1) } ∧
      fgColor ws = { nth (colorsByLuminance ws) 0 with
        lightness := max 0.05 ((nth (colorsByLuminance ws) 0).lightness - 0.1) }) := by
  intro ws h6
  have hlen : (colorsByLuminance ws).length = 6 := by rw [colorsByLuminance_length, h6]
  have hne : colorsByLuminance ws ≠ [] := by
    intro h0
    rw [h0] at hlen
    simp at hlen
  have hp := colorsByLuminance_pairwise ws
  refine ⟨⟨?_, ?_⟩, ⟨?_, ?_⟩, ?_, ?_, ?_⟩
  · rw [← colorsByLuminance_mem ws, nth_eq_getElem (by omega)]
    exact List.get_mem _ _ _
  · intro c hc
    have := sorted_nth0_le lumAsc_refl hp hne c ((colorsByLuminance_mem _).mpr hc)
    simpa [lumAsc] using this
  · rw [← colorsByLuminance_mem ws, nth_eq_getElem (by omega)]
    exact List.get_mem _ _ _
  · intro c hc
    have := sorted_le_nth5 lumAsc_refl hp hlen c ((colorsByLuminance_mem _).mpr hc)
    simpa [lumAsc] using this
  · simp [isDarkTheme, mostProminentColor]
  · intro h
    exact ⟨by simp [bgColor, h], by simp [fgColor, h]⟩
  · intro h
    exact ⟨by simp [bgColor, h], by simp [fgColor, h]⟩

/-- C2 witness: the background/foreground selection at a concrete dark-mode
working set. -/
theorem bg_fg_selection_linear_luminance_witness :
    cxList.length = 6 ∧
    ((nth (colorsByLuminance cxList) 0 ∈ cxList ∧
      ∀ c ∈ cxList, simpleLuminance (nth (colorsByLuminance cxList) 0) ≤ simpleLuminance c) ∧
    (nth (colorsByLuminance cxList) 5 ∈ cxList ∧
      ∀ c ∈ cxList, simpleLuminance c ≤ simpleLuminance (nth (colorsByLuminance cxList) 5)) ∧
    (isDarkTheme cxList = true ↔ (nth cxList 0).lightness < 0.5) ∧
    (isDarkTheme cxList = true →
      bgColor cxList = { nth (colorsByLuminance cxList) 0 with
        lightness := max 0.05 ((nth (colorsByLuminance cxList) 0).lightness - 0.1) } ∧
      fgColor cxList = { nth (colorsByLuminance cxList) 5 with
        lightness := min 0.95 ((nth (colorsByLuminance cxList) 5).lightness + 0.1) }) ∧
    (isDarkTheme cxList = false →
      bgColor cxList = { nth (colorsByLuminance cxList) 5 with
        lightness := min 0.95 ((nth (colorsByLuminance cxList) 5).lightness + 0.1) } ∧
      fgColor cxList = { nth (colorsByLuminance cxList) 0 with
        lightness := max 0.05 ((nth (colorsByLuminance cxList) 0).lightness - 0.1) })) :=
  ⟨by simp [cxList], bg_fg_selection_linear_luminance cxList (by simp [cxList])⟩

theorem srgbLin_110_le : srgbLin 110 ≤ 0.2126 := by
  simp only [srgbLin]
  rw [if_neg (by push_cast; norm_num)]
  have hx0 : (0 : ℝ) < (((110 : ℚ) : ℝ) / 255 + 0.055) / 1.055 := by
    push_cast
    norm_num
  have hx1 : (((110 : ℚ) : ℝ) / 255 + 0.055) / 1.055 ≤ 1 := by
    push_cast
    norm_num
  calc ((((110 : ℚ) : ℝ) / 255 + 0.055) / 1.055) ^ (2.4 : ℝ)
      ≤ ((((110 : ℚ) : ℝ) / 255 + 0.055) / 1.055) ^ (((2 : ℕ) : ℝ)) :=
        Real.rpow_le_rpow_of_exponent_ge hx0 hx1 (by push_cast; norm_num)
    _ = ((((110 : ℚ) : ℝ) / 255 + 0.055) / 1.055) ^ (2 : ℕ) :=
        Real.rpow_natCast _ 2
    _ ≤ 0.2126 := by push_cast; norm_num

theorem getLuminance_cxA : getLuminance cxA = 0.2126 := by
  have h255 : srgbLin cxA.red = 1 := by
    show srgbLin 255 = 1
    exact srgbLin_255
  have h0g : srgbLin cxA.green = 0 := by
    show srgbLin 0 = 0
    exact srgbLin_zero
  have h0b : srgbLin cxA.blue = 0 := by
    show srgbLin 0 = 0
    exact srgbLin_zero
  rw [getLuminance, h255, h0g, h0b]
  norm_num

theorem getLuminance_cxW : getLuminance cxW = 1 := by
  have h : srgbLin (255 : ℚ) = 1 := srgbLin_255
  show 0.2126 * srgbLin cxW.red + 0.7152 * srgbLin cxW.green +
      0.0722 * srgbLin cxW.blue = 1
  show 0.2126 * srgbLin 255 + 0.7152 * srgbLin 255 + 0.0722 * srgbLin 255 = 1
  rw [h]
  norm_num

theorem getLuminance_cxB_le : getLuminance cxB ≤ 0.7152 * 0.2126 := by
  have hg : srgbLin cxB.green ≤ 0.2126 := by
    show srgbLin 110 ≤ 0.2126
    exact srgbLin_110_le
  have h0r : srgbLin cxB.red = 0 := by
    show srgbLin 0 = 0
    exact srgbLin_zero
  have h0b : srgbLin cxB.blue = 0 := by
    show srgbLin 0 = 0
    exact srgbLin_zero
  rw [getLuminance, h0r, h0b]
  nlinarith

/-- C2 counterexample: on the concrete dark working set `cxList`, the
candidate `cxB` has strictly minimal gamma-decoded WCAG relative luminance
(`getLuminance`), yet the background is not derived from it (the code sorts
by the plain linear luminance instead, under which `cxA` is darkest). -/
theorem luminance_sort_not_wcag_cx :
    isDarkTheme cxList = true ∧
    cxB ∈ cxList ∧
    getLuminance cxB < getLuminance cxA ∧
    getLuminance cxB < getLuminance cxW ∧
    bgColor cxList ≠
      { cxB with lightness := max 0.05 (cxB.lightness - 0.1) } := by
  have hBA : getLuminance cxB < getLuminance cxA := by
    have := getLuminance_cxB_le
    rw [getLuminance_cxA]
    linarith
  have hBW : getLuminance cxB < getLuminance cxW := by
    have := getLuminance_cxB_le
    rw [getLuminance_cxW]
    linarith
  have hsorted : (cxList.mergeSort lumAsc) = cxList := by
    apply List.mergeSort_of_sorted
    simp [cxList, List.pairwise_cons, lumAsc, simpleLuminance, cxA, cxB, cxW]
    norm_num
  refine ⟨?_, ?_, hBA, hBW, ?_⟩
  · simp [isDarkTheme, mostProminentColor, nth, cxList, cxA]
    norm_num
  · simp [cxList]
  · have hL : colorsByLuminance cxList = cxList := hsorted
    have hbg : bgColor cxList =
        { cxA with lightness := max 0.05 (cxA.lightness - 0.1) } := by
      have hdark : isDarkTheme cxList = true := by
        simp [isDarkTheme, mostProminentColor, nth, cxList, cxA]
        norm_num
      rw [bgColor, hdark, hL]
      rfl
    rw [hbg]
    intro h
    have := congrArg Color.green h
    simp [cxA, cxB] at this

/-- C9 (amended): the primary role is the candidate of maximal saturation in
the working set, and the accent role is synthesized from primary by shifting
its hue by the literal `0.33` of a turn (approximately, but not exactly, 1/3)
modulo 1 and saturating to `min 1 (1.1 × s)`. -/
theorem primary_accent_selection : ∀ ws : List Color, ws.length = 6 →
    (primaryColor ws ∈ ws ∧ ∀ c ∈ ws, c.saturation ≤ (primaryColor ws).saturation) ∧
    accentColor ws = { primaryColor ws with
      hue := jsMod1 ((primaryColor ws).hue + 0.33),
      saturation := min 1 ((primaryColor ws).saturation * 1.1) } := by
  intro ws h6
  have hlen : (colorsBySaturation ws).length = ws.length := List.length_mergeSort ws
  have hne : colorsBySaturation ws ≠ [] := by
    intro h0
    rw [h0] at hlen
    rw [h6] at hlen
    simp at hlen
  have hp : (colorsBySaturation ws).Pairwise (satDesc · ·) :=
    List.sorted_mergeSort satDesc_trans satDesc_total ws
  refine ⟨⟨?_, ?_⟩, rfl⟩
  · rw [primaryColor, nth_eq_getElem (by rw [hlen, h6]; omega)]
    exact List.mem_mergeSort.mp (List.get_mem _ _ _)
  · intro c hc
    have := sorted_nth0_le satDesc_refl hp hne c (List.mem_mergeSort.mpr hc)
    simpa [satDesc, primaryColor] using this

/-- C9 witness: the primary/accent selection at a concrete working set. -/
theorem primary_accent_selection_witness :
    cxRL.length = 6 ∧
    ((primaryColor cxRL ∈ cxRL ∧
      ∀ c ∈ cxRL, c.saturation ≤ (primaryColor cxRL).saturation) ∧
    accentColor cxRL = { primaryColor cxRL with
      hue := jsMod1 ((primaryColor cxRL).hue + 0.33),
      saturation := min 1 ((primaryColor cxRL).saturation * 1.1) }) :=
  ⟨by simp [cxRL], primary_accent_selection cxRL (by simp [cxRL])⟩

/-- C9 counterexample: the accent hue shift is the literal `0.33`, not exactly
one third of a turn — on a working set whose primary hue is `0` the accent
hue is `0.33` while a third-of-a-turn shift would give `1/3`. -/
theorem accent_hue_not_third_turn_cx :
    (accentColor cxRL).hue = 0.33 ∧
    jsMod1 ((primaryColor cxRL).hue + 1 / 3) = 1 / 3 ∧
    (accentColor cxRL).hue ≠ jsMod1 ((primaryColor cxRL).hue + 1 / 3) := by
  have hsorted : (cxRL.mergeSort satDesc) = cxRL := by
    apply List.mergeSort_of_sorted
    simp [cxRL, List.pairwise_cons, satDesc, cxR]
  have hS : colorsBySaturation cxRL = cxRL := hsorted
  have hprim : primaryColor cxRL = cxR := by
    rw [primaryColor, hS]
    rfl
  have h033 : (accentColor cxRL).hue = 0.33 := by
    rw [accentColor]
    show jsMod1 ((primaryColor cxRL).hue + 0.33) = 0.33
    rw [hprim]
    show jsMod1 ((0 : ℚ) + 0.33) = 0.33
    rw [jsMod1_small (by norm_num) (by norm_num)]
    norm_num
  have h13 : jsMod1 ((primaryColor cxRL).hue + 1 / 3) = 1 / 3 := by
    rw [hprim]
    show jsMod1 ((0 : ℚ) + 1 / 3) = 1 / 3
    rw [jsMod1_small (by norm_num) (by norm_num)]
    norm_num
  refine ⟨h033, h13, ?_⟩
  rw [h033, h13]
  norm_num

theorem pad_eq : ∀ (fuel : ℕ) (l : List Color), l ≠ [] → 6 - l.length ≤ fuel →
    pad fuel l =
      l ++ (List.range' l.length (6 - l.length)).map (variation (nth l 0)) := by
  intro fuel
  induction fuel with
  | zero =>
    intro l hne hle
    have h0 : 6 - l.length = 0 := by omega
    simp only [pad, h0]
    simp
  | succ f ih =>
    intro l hne hle
    by_cases h : l.length < 6
    · have hstep : pad (f + 1) l =
          pad f (l ++ [variation (l.getD 0 dfltColor) l.length]) := by
        simp only [pad]
        rw [if_pos h]
      rw [hstep, ih (l ++ [variation (l.getD 0 dfltColor) l.length]) (by simp)
        (by simp only [List.length_append, List.length_singleton]; omega)]
      have hnth : nth (l ++ [variation (l.getD 0 dfltColor) l.length]) 0 = nth l 0 := by
        cases l with
        | nil => exact absurd rfl hne
        | cons a t => rfl
      rw [hnth, List.append_assoc]
      congr 1
      have h1 : 6 - l.length = (6 - (l.length + 1)) + 1 := by omega
      rw [h1, List.range'_succ]
      simp only [List.length_append, List.length_singleton, List.map_cons,
        List.singleton_append]
      rfl
    · have h0 : 6 - l.length = 0 := by omega
      simp only [pad]
      rw [if_neg h, h0]
      simp

theorem top6_length (valid : List Color) : (top6 valid).length = min 6 valid.length := by
  simp only [top6, List.length_take, List.length_mergeSort]
  omega

theorem top6_take6 (valid : List Color) :
    top6 valid = (valid.mergeSort areaDesc).take 6 := by
  rw [top6]
  rcases le_total 6 valid.length with h | h
  · rw [min_eq_left h]
  · rw [min_eq_right h,
      List.take_of_length_le (le_of_eq (List.length_mergeSort valid)),
      List.take_of_length_le (by rw [List.length_mergeSort]; exact h)]

theorem nth0_take {l : List Color} {k : ℕ} (hk : 0 < k) (hl : l ≠ []) :
    nth (l.take k) 0 = nth l 0 := by
  cases l with
  | nil => exact absurd rfl hl
  | cons a t =>
    obtain ⟨k', rfl⟩ : ∃ k', k = k' + 1 := ⟨k - 1, by omega⟩
    rfl

/-- C3 (amended): whenever at least one valid candidate exists, the working
set used for role assignment has exactly 6 members; it consists of the top 6
candidates ranked by area descending, then deterministic perturbations of the
most dominant candidate — hue offset `j * 0.1` and lightness
`0.3 + ((j * 0.1) % 0.7)` for each missing slot `j` — with no randomness. -/
theorem workingSet_six_of_valid : ∀ colors : List RawColor,
    colors ≠ [] → validColors colors ≠ [] →
    workingSetOpt colors = some (workingSet (validColors colors)) ∧
    (workingSet (validColors colors)).length = 6 ∧
    workingSet (validColors colors) =
      top6 (validColors colors) ++
        (List.range' (top6 (validColors colors)).length
          (6 - (top6 (validColors colors)).length)).map
          (variation (nth (top6 (validColors colors)) 0)) ∧
    top6 (validColors colors) = ((validColors colors).mergeSort areaDesc).take 6 ∧
    (∀ c ∈ validColors colors, c.area ≤ (nth (top6 (validColors colors)) 0).area) := by
  intro colors hc hv
  have hvlen : (validColors colors).length ≠ 0 := by
    simpa [List.length_eq_zero] using hv
  have htop : (top6 (validColors colors)).length = min 6 (validColors colors).length :=
    top6_length (validColors colors)
  have htle : (top6 (validColors colors)).length ≤ 6 := by omega
  have htne : top6 (validColors colors) ≠ [] := by
    intro h0
    rw [h0] at htop
    simp at htop
    omega
  have hpadeq := pad_eq 6 (top6 (validColors colors)) htne (by omega)
  refine ⟨?_, ?_, ?_, top6_take6 _, ?_⟩
  · rw [workingSetOpt, if_neg (by simpa [List.length_eq_zero] using hc), if_neg hvlen]
  · rw [workingSet, hpadeq]
    simp only [List.length_append, List.length_map, List.length_range']
    omega
  · rw [workingSet]
    exact hpadeq
  · intro c hcv
    have hmsne : (validColors colors).mergeSort areaDesc ≠ [] := by
      intro h0
      have hlm : ((validColors colors).mergeSort areaDesc).length =
          (validColors colors).length := List.length_mergeSort _
      rw [h0] at hlm
      simp at hlm
      exact hvlen hlm.symm
    have h0 : nth (top6 (validColors colors)) 0 =
        nth ((validColors colors).mergeSort areaDesc) 0 := by
      rw [top6]
      exact nth0_take (lt_min (by norm_num) (by omega)) hmsne
    rw [h0]
    have hp := List.sorted_mergeSort areaDesc_trans areaDesc_total (validColors colors)
    have := sorted_nth0_le areaDesc_refl hp hmsne c (List.mem_mergeSort.mpr hcv)
    simpa [areaDesc] using this

/-- C3 witness: a single valid candidate yields a working set of exactly 6. -/
theorem workingSet_six_of_valid_witness :
    (workingSet (validColors [rawOf sampleColor])).length = 6 :=
  (workingSet_six_of_valid [rawOf sampleColor] (by simp)
    (by simp [validColors, validate, rawOf])).2.1

/-- C3 counterexample: with zero valid candidates (the empty list, or a list
whose only candidate has no numeric HSL fields) `generateTheme` never builds
a 6-member working set — it bypasses the candidate machinery entirely and
delegates to `generateThemeFromSingleColor` on the fallback color. -/
theorem workingSet_zero_valid_cx :
    workingSetOpt [] = none ∧ workingSetOpt [invalidRaw] = none ∧
    generateTheme 0.25 [invalidRaw] =
      generateThemeFromSingleColor 0.25 createFallbackColor := by
  refine ⟨rfl, ?_, ?_⟩
  · rw [workingSetOpt]
    simp [validColors, validate, invalidRaw]
  · rw [generateTheme]
    simp [validColors, validate, invalidRaw]

/-- C7 (amended): in the multi-candidate path only the primary-, secondary-
and accent-foreground roles are computed via `getReadableTextColor` (applied
to their own paired role color); card- and popover-foreground are the plain
foreground color, muted-foreground is a lightness-shifted foreground, and
destructive-foreground is the constant `#ffffff`. `getReadableTextColor`
itself returns black exactly when the paired color's plain luminance exceeds
`0.5`, white otherwise. -/
theorem foreground_roles_partial_readable : ∀ (r : ℚ) (colors : List RawColor),
    colors ≠ [] → validColors colors ≠ [] →
    ((generateTheme r colors).lookup "--primary-foreground" =
      some (getReadableTextColor (primaryColor (workingSet (validColors colors)))) ∧
    (generateTheme r colors).lookup "--secondary-foreground" =
      some (getReadableTextColor (secondaryColor (workingSet (validColors colors)))) ∧
    (generateTheme r colors).lookup "--accent-foreground" =
      some (getReadableTextColor (accentColor (workingSet (validColors colors)))) ∧
    (generateTheme r colors).lookup "--card-foreground" =
      some (adjustHSL (fgColor (workingSet (validColors colors))) {}) ∧
    (generateTheme r colors).lookup "--popover-foreground" =
      some (adjustHSL (fgColor (workingSet (validColors colors))) {}) ∧
    (generateTheme r colors).lookup "--muted-foreground" =
      some (adjustHSL (fgColor (workingSet (validColors colors)))
        { lightness :=
            if isDarkTheme (workingSet (validColors colors)) then -15 else 15 }) ∧
    (generateTheme r colors).lookup "--destructive-foreground" =
      some (CssValue.hex "#ffffff")) ∧
    (∀ c : Color, getReadableTextColor c = CssValue.hsl 0 0 0 ∨
      getReadableTextColor c = CssValue.hsl 0 0 100) ∧
    (∀ c : Color, 0.5 < simpleLuminance c →
      getReadableTextColor c = CssValue.hsl 0 0 0) ∧
    (∀ c : Color, simpleLuminance c ≤ 0.5 →
      getReadableTextColor c = CssValue.hsl 0 0 100) := by
  intro r colors hc hv
  have h1 : ¬ colors.length = 0 := by simpa [List.length_eq_zero] using hc
  have h2 : ¬ (validColors colors).length = 0 := by
    simpa [List.length_eq_zero] using hv
  refine ⟨?_, fun c => ?_, fun c hl => ?_, fun c hl => ?_⟩
  · rw [generateTheme, if_neg h1, if_neg h2]
    refine ⟨?_, ?_, ?_, ?_, ?_, ?_, ?_⟩ <;> simp [mainThemeBody, List.lookup]
  · simp only [getReadableTextColor]
    split_ifs
    · exact Or.inl rfl
    · exact Or.inr rfl
  · simp only [simpleLuminance] at hl
    simp only [getReadableTextColor]
    rw [if_pos hl]
  · simp only [simpleLuminance] at hl
    simp only [getReadableTextColor]
    rw [if_neg (not_lt.mpr hl)]

/-- C7 witness: the primary-foreground role at a concrete input is the
readable-text color of the primary role color. -/
theorem foreground_roles_partial_readable_witness :
    (generateTheme 0.25 [rawOf sampleColor]).lookup "--primary-foreground" =
      some (getReadableTextColor (primaryColor (workingSet (validColors [rawOf sampleColor])))) :=
  (foreground_roles_partial_readable 0.25 [rawOf sampleColor] (by simp)
    (by simp [validColors, validate, rawOf])).1.1

/-- C7 counterexample: not every `-foreground` role goes through
`getReadableTextColor` (whose only possible outputs are `hsl(0, 0%, 0%)` and
`hsl(0, 0%, 100%)`): on the empty input the returned theme maps
`--destructive-foreground` to the literal hex `#ffffff` and
`--primary-foreground` to the literal hex `#000000`, neither of which is a
`getReadableTextColor` output. -/
theorem foreground_not_all_readable_cx :
    (generateTheme 0.25 []).lookup "--destructive-foreground" =
      some (CssValue.hex "#ffffff") ∧
    (generateTheme 0.25 []).lookup "--primary-foreground" =
      some (CssValue.hex "#000000") ∧
    CssValue.hex "#ffffff" ≠ CssValue.hsl 0 0 0 ∧
    CssValue.hex "#ffffff" ≠ CssValue.hsl 0 0 100 ∧
    CssValue.hex "#000000" ≠ CssValue.hsl 0 0 0 ∧
    CssValue.hex "#000000" ≠ CssValue.hsl 0 0 100 := by
  refine ⟨?_, ?_, fun h => CssValue.noConfusion h, fun h => CssValue.noConfusion h,
    fun h => CssValue.noConfusion h, fun h => CssValue.noConfusion h⟩
  · simp [generateTheme, generateThemeFromSingleColor, singleThemeBody, List.lookup]
  · simp [generateTheme, generateThemeFromSingleColor, singleThemeBody,
      createFallbackColor, List.lookup]
    norm_num

end Themify
